import Mathlib

/-!
Shallow embedding of the ChargeStore (charge lifecycle state machine,
poller, cancellation flow, limit policy and direct-wallet mediator
fragments) of the resthooks repository.

Conventions of the embedding:
* JS numbers used for money amounts are modelled as rationals;
  confirmation counts and error streaks as naturals.
* The mobx store's observable fields become fields of the `ChargeStore`
  structure; every action becomes a pure function `ChargeStore → ChargeStore`
  (or returns extra data where the source returns a value).
* Timer handles (`pollTimeoutId`, `expiryIntervalId`) are opaque in the
  source and only ever tested for truthiness; they are modelled as `Bool`
  (true = handle present / scheduled or in flight, false = null).
* External reads of the environment (`document.hidden`,
  `IS_LOCAL_STORAGE_AVAILABLE`) are snapshot fields of the store.
* Side channels the source fires and forgets (tracking events, widget
  notifications, `parent.returnHome()`) are recorded in the state as an
  event log / counter so that claims about "no tracking call" are statable.
* Asynchronous actions (`poll`, `cancelCharge`, `requestWeb3` event
  handlers) are split at their suspension points: the synchronous prefix
  and the continuation applied to the awaited result (`Except ApiError
  Charge`) are separate functions.
* The store's `charge` field is only read after `setCharge` installed a
  charge, so it is modelled as always present; the `if (!this.charge)`
  guards of `poll`/`cancelCharge` are therefore vacuous here.
-/

namespace Resthooks

/-- Block-confirmation data of one detected on-chain payment. -/
structure Block where
  confirmations : Nat
  confirmationsRequired : Nat
deriving DecidableEq, Repr

/-- One element of `charge.payments`. -/
structure Payment where
  block : Block
deriving DecidableEq, Repr

/-- A priced amount in some cryptocurrency: an entry of `charge.pricing`.
The JS source stores `amount` as a string and converts with `Number`;
we model the numeric value directly as a rational. -/
structure CryptoMoney where
  amount : Rat
  currency : String
deriving DecidableEq, Repr

/-- One entry of the charge's ordered status timeline. -/
structure TimelineEntry where
  status : String
deriving DecidableEq, Repr

/-- The externally owned charge snapshot (the fields this store reads). -/
structure Charge where
  code : String
  pricingType : String
  /-- network key to receiving address (JS object, modelled as assoc list) -/
  addresses : List (String × String)
  /-- network key (or pricing key) to priced amount -/
  pricing : List (String × CryptoMoney)
  timeline : List TimelineEntry
  payments : List Payment
  cancelUrl : Option String
deriving DecidableEq, Repr

/-- The presentation step owned by the lifecycle state machine. -/
inductive ChargeStep where
  | networkPicker
  | oauth
  | awaitingPayment
  | pendingPayment
  | waitingForConfirmations
  | successfulPayment
  | failedPayment
  | canceledPayment
  | processingCancellation
  | maintenance
deriving DecidableEq, Repr

/-- Printable name of a step, used in the goBack error message. -/
def ChargeStep.name : ChargeStep → String
  | .networkPicker => "networkPicker"
  | .oauth => "oauth"
  | .awaitingPayment => "awaitingPayment"
  | .pendingPayment => "pendingPayment"
  | .waitingForConfirmations => "waitingForConfirmations"
  | .successfulPayment => "successfulPayment"
  | .failedPayment => "failedPayment"
  | .canceledPayment => "canceledPayment"
  | .processingCancellation => "processingCancellation"
  | .maintenance => "maintenance"

/-- The direct-wallet mediator's status (tagged union `Web3Status`). -/
inductive Web3Status where
  | idle
  | asking
  | declined (currency : String)
  | submitted (txId : String)
  | mined (txId : String) (confirmations : Nat)
  | canceled
  | failed
  | unsupported
  | wrongChain
  | noAccount
deriving DecidableEq, Repr

/-- The `context` argument of `processChargeUpdate`. -/
inductive ChargeContext where
  | startup
  | poll
  | cancel
deriving DecidableEq, Repr

/-- An error thrown by a backend request (the fields the source inspects). -/
structure ApiError where
  statusCode : Nat
  errorType : String
deriving DecidableEq, Repr

/-- The mutable store state, together with the environment snapshot and
the logs of outbound fire-and-forget calls. -/
structure ChargeStore where
  charge : Charge
  step : ChargeStep
  pickedNetwork : Option String := none
  web3Status : Web3Status := .idle
  pollErrorStreak : Nat := 0
  /-- truthiness of `this.pollTimeoutId` -/
  pollTimeoutId : Bool := false
  /-- truthiness of `this.expiryIntervalId` -/
  expiryIntervalId : Bool := false
  isOAuthPayment : Bool := false
  /-- environment snapshot: `document.hidden` -/
  docHidden : Bool := false
  /-- environment snapshot: `IS_LOCAL_STORAGE_AVAILABLE` -/
  localStorageAvailable : Bool := true
  /-- log of `this.tracking.track(...)` calls -/
  trackedEvents : List String := []
  /-- log of `widgetStore.send*Event(code)` calls: (event kind, charge code) -/
  widgetEvents : List (String × String) := []
  /-- number of `this.parent.returnHome()` calls -/
  returnHomeCalls : Nat := 0
deriving DecidableEq, Repr

/-- this.tracking.track(event) -/
def track (s : ChargeStore) (event : String) : ChargeStore :=
  { s with trackedEvents := s.trackedEvents ++ [event] }

/-- chargeStatus getter: status of the last timeline entry, if any. -/
def chargeStatus (c : Charge) : Option String :=
  (c.timeline.getLast?).map (·.status)

/-- isUnpriced getter. -/
def isUnpriced (c : Charge) : Bool :=
  c.pricingType ≠ "fixed_price"

/-- activePayment getter: `this.charge.payments[0]`. -/
def activePayment (c : Charge) : Option Payment :=
  c.payments.head?

/-- Insertion of a string into a sorted list (helper for `networks`). -/
def insertSorted (x : String) : List String → List String
  | [] => [x]
  | y :: ys => if x ≤ y then x :: y :: ys else y :: insertSorted x ys

/-- Lexicographic sort of a list of strings (JS default `Array.sort`). -/
def sortStrings : List String → List String
  | [] => []
  | x :: xs => insertSorted x (sortStrings xs)

/-- networks getter: `Object.keys(this.charge.addresses).sort()`. -/
def networks (c : Charge) : List String :=
  sortStrings (c.addresses.map Prod.fst)

/-- shouldShowPayWithCoinbase: priced (not a donation) and localStorage
is available. -/
def shouldShowPayWithCoinbase (localStorageAvailable : Bool) (c : Charge) : Bool :=
  decide (c.pricingType ≠ "no_price") && localStorageAvailable

/-- shouldSkipNetworkPicker getter. -/
def shouldSkipNetworkPicker (s : ChargeStore) : Bool :=
  !(shouldShowPayWithCoinbase s.localStorageAvailable s.charge)
    && decide ((networks s.charge).length = 1)

/-- stopPolling: clear both timers and reset the error streak. -/
def stopPolling (s : ChargeStore) : ChargeStore :=
  { s with pollTimeoutId := false, expiryIntervalId := false, pollErrorStreak := 0 }

/-- The synchronous prefix of `poll` up to its first await: the re-entry
guard, then marking `pollTimeoutId` truthy. Returns the updated store and
whether the fetch was actually started (false = early return). -/
def pollBegin (s : ChargeStore) (isInitial : Bool) : ChargeStore × Bool :=
  if s.pollTimeoutId && isInitial then (s, false)
  else ({ s with pollTimeoutId := true }, true)

/-- startPolling (its synchronous effect): stopPolling, run the
synchronous prefix of `poll(true)`, and start the one-second expiry tick.
Setting `now` from the wall clock is outside the model. -/
def startPolling (s : ChargeStore) : ChargeStore :=
  let s := stopPolling s
  let s := (pollBegin s true).1
  { s with expiryIntervalId := true }

/-- showNetworkPicker. -/
def showOAuthScreen (s : ChargeStore) : ChargeStore :=
  { s with step := .oauth }

/-- showAwaitingPayment(network). -/
def showAwaitingPayment (s : ChargeStore) (network : String) : ChargeStore :=
  let s := { s with pickedNetwork := some network }
  let s := track s "checkout:awaiting-payment-shown"
  let s := { s with step := ChargeStep.awaitingPayment }
  startPolling s

/-- showNetworkPicker: clear the picked network; if the picker would be
skipped, go straight to awaitingPayment on the sole network (the skip
branch is only reachable with exactly one network, so the `headD`
default is never used), else show the picker step. -/
def showNetworkPicker (s : ChargeStore) : ChargeStore :=
  let s := { s with pickedNetwork := none }
  if shouldSkipNetworkPicker s then
    showAwaitingPayment s ((networks s.charge).headD "")
  else
    { s with step := ChargeStep.networkPicker }

/-- showPendingPayment. -/
def showPendingPayment (s : ChargeStore) : ChargeStore :=
  let s := track s "checkout:payment-detected"
  let s := { s with step := ChargeStep.pendingPayment }
  { s with widgetEvents := s.widgetEvents ++ [("paymentDetected", s.charge.code)] }

/-- showWaitingForConfirmations. -/
def showWaitingForConfirmations (s : ChargeStore) : ChargeStore :=
  let s := track s "checkout:payment-waiting-for-confirmations"
  { s with step := ChargeStep.waitingForConfirmations }

/-- showSuccessfulPayment: track, move to the terminal step, stop polling,
notify the widget. -/
def showSuccessfulPayment (s : ChargeStore) : ChargeStore :=
  let s := track s "checkout:payment-completed"
  let s := { s with step := ChargeStep.successfulPayment }
  let s := stopPolling s
  { s with widgetEvents := s.widgetEvents ++ [("successfulCharge", s.charge.code)] }

/-- showFailedPayment. -/
def showFailedPayment (s : ChargeStore) : ChargeStore :=
  let s := track s "checkout:payment-failed"
  let s := { s with widgetEvents := s.widgetEvents ++ [("failedCharge", s.charge.code)] }
  let s := { s with step := ChargeStep.failedPayment }
  stopPolling s

/-- showCanceledPayment (it reuses the failed-charge widget event). -/
def showCanceledPayment (s : ChargeStore) : ChargeStore :=
  let s := track s "checkout:payment-canceled"
  let s := { s with widgetEvents := s.widgetEvents ++ [("failedCharge", s.charge.code)] }
  let s := { s with step := ChargeStep.canceledPayment }
  stopPolling s

/-- showMaintenanceMode: polling continues. -/
def showMaintenanceMode (s : ChargeStore) : ChargeStore :=
  { s with step := ChargeStep.maintenance }

/-- processPendingPayment: dispatch on the first payment's confirmation
counts; silently return when there is no payment. -/
def processPendingPayment (s : ChargeStore) : ChargeStore :=
  match activePayment s.charge with
  | none => s
  | some payment =>
    if payment.block.confirmationsRequired ≤ payment.block.confirmations then
      showSuccessfulPayment s
    else if payment.block.confirmations = 0 then
      showPendingPayment s
    else
      showWaitingForConfirmations s

/-- The switch body of `processChargeUpdate`, applied after the held
charge has been replaced (the JS switch is written as an if-chain on the
status string; fall-through pairs share a branch). -/
def dispatchStatus (s : ChargeStore) : ChargeStore :=
  let status := chargeStatus s.charge
  if status = some "NEW" then
    s
  else if status = some "PENDING" then
    if isUnpriced s.charge then showSuccessfulPayment s else processPendingPayment s
  else if status = some "COMPLETED" then
    showSuccessfulPayment s
  else if status = some "RESOLVED" then
    showSuccessfulPayment s
  else if status = some "UNRESOLVED" then
    showFailedPayment s
  else if status = some "EXPIRED" then
    showFailedPayment s
  else if status = some "CANCELED" then
    showCanceledPayment s
  else
    s

/-- processChargeUpdate(charge, context): deep-equality short-circuit in
poll context, else replace the held charge and dispatch on its status. -/
def processChargeUpdate (s : ChargeStore) (charge : Charge) (context : ChargeContext) :
    ChargeStore :=
  if context = ChargeContext.poll ∧ s.charge = charge then
    s
  else
    dispatchStatus { s with charge := charge }

/-- goBack: errors model the `throw new Error(...)`. -/
def goBack (s : ChargeStore) : Except String ChargeStore :=
  match s.step with
  | .awaitingPayment =>
    if shouldSkipNetworkPicker s then
      let s := stopPolling s
      .ok { s with returnHomeCalls := s.returnHomeCalls + 1 }
    else
      .ok (showNetworkPicker s)
  | .networkPicker | .successfulPayment | .failedPayment | .canceledPayment =>
    let s := stopPolling s
    .ok { s with returnHomeCalls := s.returnHomeCalls + 1 }
  | step =>
    .error ("can't go back from " ++ step.name)

/-- The continuation of `poll` after the awaited fetch resolves, applied
to the fetch's outcome. Both the success and the failure branch first
bail out when polling was cancelled in the meantime
(`if (!this.pollTimeoutId) return`); afterwards they schedule the next
cycle (modelled as `pollTimeoutId := true`). -/
def pollResume (s : ChargeStore) (result : Except ApiError Charge) : ChargeStore :=
  if !s.pollTimeoutId then
    s
  else
    match result with
    | .ok charge =>
      let s := { s with pollErrorStreak := 0 }
      let s := processChargeUpdate s charge ChargeContext.poll
      { s with pollTimeoutId := true }
    | .error e =>
      let s :=
        if e.statusCode = 503 ∧ e.errorType = "maintenance" then
          showMaintenanceMode s
        else
          { s with pollErrorStreak := s.pollErrorStreak + 1 }
      { s with pollTimeoutId := true }

/-- cancelCharge, applied to the backend response: track, optimistically
move to processingCancellation and stop polling, then process the
response (errors are swallowed); always returns the held charge's
cancelUrl. -/
def cancelCharge (s : ChargeStore) (result : Except ApiError Charge) :
    ChargeStore × Option String :=
  let s := track s "checkout:payment-canceled"
  let s := { s with step := ChargeStep.processingCancellation }
  let s := stopPolling s
  let s :=
    match result with
    | .ok charge => processChargeUpdate s charge ChargeContext.cancel
    | .error _ => s
  (s, s.charge.cancelUrl)

/-- pollDelay getter. -/
def pollDelay (s : ChargeStore) : Nat :=
  if s.step = ChargeStep.networkPicker ∨ s.step = ChargeStep.maintenance ∨ s.docHidden then
    15000
  else if s.pollErrorStreak > 10 then
    10000
  else if s.pollErrorStreak > 5 then
    5000
  else
    2000

/-- The transactionHash event handler installed by requestWeb3, with the
requested currency captured from the enclosing closure. A falsy hash
(absent or empty string) is treated as a covert decline. -/
def onTransactionHash (s : ChargeStore) (currency : String) (txId : Option String) :
    ChargeStore :=
  match txId with
  | none => { s with web3Status := Web3Status.declined currency }
  | some t =>
    if t = "" then
      { s with web3Status := Web3Status.declined currency }
    else
      { s with web3Status := Web3Status.submitted t }

/-- COINBASE_CRYPTO_LOWER_SEND_LIMIT table. The decimal constants of the
source are written as explicit rationals: 0.0001, 0.00001 and 0.001. -/
def COINBASE_CRYPTO_LOWER_SEND_LIMIT : List (String × Rat) :=
  [("BTC", mkRat 1 10000), ("BCH", mkRat 1 100000), ("LTC", mkRat 1 1000),
   ("ETH", mkRat 1 1000), ("USDC", mkRat 1 1000), ("BEER", mkRat 1 1000),
   ("TST", mkRat 1 1000)]

/-- Per-currency minimum: Number of the table entry, defaulting to 0 for
an absent currency. -/
def lowerSendLimit (currency : String) : Rat :=
  (COINBASE_CRYPTO_LOWER_SEND_LIMIT.lookup currency).getD 0

/-- The priced entries the for-in loop of
setIsChargeBelowCoinbaseLowerSendLimit visits: the pricing entry of each
address key, in key order. A missing pricing entry makes the JS
destructuring throw, modelled as `none`. -/
def pricedEntries (addresses : List (String × String))
    (pricing : List (String × CryptoMoney)) : Option (List CryptoMoney) :=
  match addresses with
  | [] => some []
  | kv :: rest =>
    match pricing.lookup kv.1 with
    | none => none
    | some m =>
      match pricedEntries rest pricing with
      | none => none
      | some es => some (m :: es)

/-- Whether one visited pricing entry is pushed onto invalidCurrencies:
its price is strictly below its currency's minimum. -/
def isInvalidEntry (m : CryptoMoney) : Bool :=
  decide (m.amount < lowerSendLimit m.currency)

/-- setIsChargeBelowCoinbaseLowerSendLimit as the value it stores: for an
unpriced charge the method returns early and the field keeps its falsy
default, modelled as `some false`; otherwise the flag is
invalidCurrencies.length = Object.keys(charge.addresses).length, that is
every address key's price is below its currency's minimum. `none` models
the JS TypeError on a charge missing a pricing entry. -/
def setIsChargeBelowCoinbaseLowerSendLimit (c : Charge) : Option Bool :=
  if isUnpriced c then
    some false
  else
    match pricedEntries c.addresses c.pricing with
    | none => none
    | some es => some (decide ((es.filter isInvalidEntry).length = c.addresses.length))

/-! ### Sample data used by the witnesses -/

/-- A concrete priced charge with one network and a NEW timeline. -/
def chargeBase : Charge :=
  { code := "CODE1", pricingType := "fixed_price",
    addresses := [("bitcoin", "addr1")],
    pricing := [("bitcoin", { amount := 1, currency := "BTC" })],
    timeline := [{ status := "NEW" }],
    payments := [],
    cancelUrl := some "https://example.com/cancel" }

/-- A concrete store holding chargeBase on the awaitingPayment step. -/
def storeBase : ChargeStore :=
  { charge := chargeBase, step := ChargeStep.awaitingPayment }

/-! ### Helper lemmas -/

theorem showSuccessfulPayment_step (s : ChargeStore) :
    (showSuccessfulPayment s).step = ChargeStep.successfulPayment := rfl

theorem showSuccessfulPayment_pollTimeoutId (s : ChargeStore) :
    (showSuccessfulPayment s).pollTimeoutId = false := rfl

theorem showSuccessfulPayment_expiryIntervalId (s : ChargeStore) :
    (showSuccessfulPayment s).expiryIntervalId = false := rfl

theorem showFailedPayment_step (s : ChargeStore) :
    (showFailedPayment s).step = ChargeStep.failedPayment := rfl

theorem showFailedPayment_pollTimeoutId (s : ChargeStore) :
    (showFailedPayment s).pollTimeoutId = false := rfl

theorem showFailedPayment_expiryIntervalId (s : ChargeStore) :
    (showFailedPayment s).expiryIntervalId = false := rfl

theorem showCanceledPayment_step (s : ChargeStore) :
    (showCanceledPayment s).step = ChargeStep.canceledPayment := rfl

theorem showCanceledPayment_pollTimeoutId (s : ChargeStore) :
    (showCanceledPayment s).pollTimeoutId = false := rfl

theorem showCanceledPayment_expiryIntervalId (s : ChargeStore) :
    (showCanceledPayment s).expiryIntervalId = false := rfl

theorem showPendingPayment_step (s : ChargeStore) :
    (showPendingPayment s).step = ChargeStep.pendingPayment := rfl

theorem showWaitingForConfirmations_step (s : ChargeStore) :
    (showWaitingForConfirmations s).step = ChargeStep.waitingForConfirmations := rfl

theorem processPendingPayment_some (s : ChargeStore) (p : Payment)
    (h : activePayment s.charge = some p) :
    processPendingPayment s =
      if p.block.confirmationsRequired ≤ p.block.confirmations then
        showSuccessfulPayment s
      else if p.block.confirmations = 0 then
        showPendingPayment s
      else
        showWaitingForConfirmations s := by
  unfold processPendingPayment
  rw [h]

theorem processChargeUpdate_eq_dispatch (s : ChargeStore) (c : Charge) (ctx : ChargeContext)
    (h : ¬(ctx = ChargeContext.poll ∧ s.charge = c)) :
    processChargeUpdate s c ctx = dispatchStatus { s with charge := c } := by
  unfold processChargeUpdate
  rw [if_neg h]

theorem dispatchStatus_new (s : ChargeStore) (h : chargeStatus s.charge = some "NEW") :
    dispatchStatus s = s := by
  unfold dispatchStatus
  rw [h]
  simp

theorem dispatchStatus_completed (s : ChargeStore)
    (h : chargeStatus s.charge = some "COMPLETED") :
    dispatchStatus s = showSuccessfulPayment s := by
  unfold dispatchStatus
  rw [h]
  simp

theorem dispatchStatus_resolved (s : ChargeStore)
    (h : chargeStatus s.charge = some "RESOLVED") :
    dispatchStatus s = showSuccessfulPayment s := by
  unfold dispatchStatus
  rw [h]
  simp

theorem dispatchStatus_unresolved (s : ChargeStore)
    (h : chargeStatus s.charge = some "UNRESOLVED") :
    dispatchStatus s = showFailedPayment s := by
  unfold dispatchStatus
  rw [h]
  simp

theorem dispatchStatus_expired (s : ChargeStore)
    (h : chargeStatus s.charge = some "EXPIRED") :
    dispatchStatus s = showFailedPayment s := by
  unfold dispatchStatus
  rw [h]
  simp

theorem dispatchStatus_canceled (s : ChargeStore)
    (h : chargeStatus s.charge = some "CANCELED") :
    dispatchStatus s = showCanceledPayment s := by
  unfold dispatchStatus
  rw [h]
  simp

theorem dispatchStatus_pending (s : ChargeStore)
    (h : chargeStatus s.charge = some "PENDING") :
    dispatchStatus s =
      if isUnpriced s.charge then showSuccessfulPayment s else processPendingPayment s := by
  unfold dispatchStatus
  rw [h]
  simp

theorem dispatchStatus_unknown (s : ChargeStore)
    (hP : chargeStatus s.charge ≠ some "PENDING")
    (hC : chargeStatus s.charge ≠ some "COMPLETED")
    (hR : chargeStatus s.charge ≠ some "RESOLVED")
    (hU : chargeStatus s.charge ≠ some "UNRESOLVED")
    (hE : chargeStatus s.charge ≠ some "EXPIRED")
    (hX : chargeStatus s.charge ≠ some "CANCELED") :
    dispatchStatus s = s := by
  unfold dispatchStatus
  by_cases hN : chargeStatus s.charge = some "NEW"
  · rw [hN]; simp
  · simp [hN, hP, hC, hR, hU, hE, hX]

/-! ### C6: poll-context deep-equality short-circuit -/

/-- C6: feeding processChargeUpdate a snapshot deeply equal to the held
charge in poll context is a no-op: the whole store (step, tracking log,
polling state) is unchanged. -/
theorem processChargeUpdate_idempotent_poll (s : ChargeStore) (c : Charge)
    (h : c = s.charge) :
    processChargeUpdate s c ChargeContext.poll = s := by
  unfold processChargeUpdate
  rw [if_pos ⟨rfl, h.symm⟩]

/-- Witness for C6 at a concrete store and its own held charge. -/
theorem processChargeUpdate_idempotent_poll_witness :
    processChargeUpdate storeBase chargeBase ChargeContext.poll = storeBase :=
  processChargeUpdate_idempotent_poll storeBase chargeBase rfl

/-! ### C5: in-flight poll result discarded after stopPolling -/

/-- C5: when the poll timeout handle was cleared while the fetch was in
flight, the resumed continuation discards the result entirely: no charge
update, no error-streak change, no next cycle scheduled (the store is
returned unchanged), for success and failure results alike. -/
theorem pollResume_discarded_when_stopped (s : ChargeStore)
    (result : Except ApiError Charge) (h : s.pollTimeoutId = false) :
    pollResume s result = s := by
  unfold pollResume
  rw [h]
  simp

/-- Witness for C5: a stopped store discards both a success and an error
result. -/
theorem pollResume_discarded_when_stopped_witness :
    pollResume storeBase (Except.ok chargeBase) = storeBase ∧
    pollResume storeBase (Except.error { statusCode := 500, errorType := "server" })
      = storeBase :=
  ⟨pollResume_discarded_when_stopped storeBase (Except.ok chargeBase) rfl,
   pollResume_discarded_when_stopped storeBase
     (Except.error { statusCode := 500, errorType := "server" }) rfl⟩

/-! ### C8: adaptive poll delay -/

/-- C8: the poll delay is 15000 whenever the step is networkPicker or
maintenance or the host display is hidden; otherwise 10000 when the
consecutive-error streak exceeds 10; otherwise 5000 when it exceeds 5;
otherwise 2000. -/
theorem pollDelay_spec (s : ChargeStore) :
    pollDelay s =
      if s.step = ChargeStep.networkPicker ∨ s.step = ChargeStep.maintenance
          ∨ s.docHidden = true then 15000
      else if 10 < s.pollErrorStreak then 10000
      else if 5 < s.pollErrorStreak then 5000
      else 2000 := by
  unfold pollDelay
  rcases s with ⟨_, step, _, _, streak, _, _, _, hidden, _, _, _, _⟩
  cases hidden <;> simp

/-! ### C9: transaction-hash event handler -/

/-- C9: a truthy transaction id makes the direct-wallet status
submitted(txId); a falsy one (absent or empty string) makes it
declined(currency), never submitted. -/
theorem onTransactionHash_spec (s : ChargeStore) (currency : String)
    (txId : Option String) :
    (∀ t, txId = some t → t ≠ "" →
      (onTransactionHash s currency txId).web3Status = Web3Status.submitted t)
    ∧ ((txId = none ∨ txId = some "") →
      (onTransactionHash s currency txId).web3Status = Web3Status.declined currency) := by
  constructor
  · intro t ht hne
    subst ht
    unfold onTransactionHash
    simp [hne]
  · intro h
    rcases h with h | h <;> subst h <;> rfl

/-- Witness for C9: a nonempty hash yields submitted, an empty hash and a
missing hash yield declined. -/
theorem onTransactionHash_spec_witness :
    (onTransactionHash storeBase "ETH" (some "0xabc")).web3Status
        = Web3Status.submitted "0xabc" ∧
    (onTransactionHash storeBase "ETH" (some "")).web3Status
        = Web3Status.declined "ETH" ∧
    (onTransactionHash storeBase "ETH" none).web3Status
        = Web3Status.declined "ETH" :=
  ⟨(onTransactionHash_spec storeBase "ETH" (some "0xabc")).1 "0xabc" rfl (by decide),
   (onTransactionHash_spec storeBase "ETH" (some "")).2 (Or.inr rfl),
   (onTransactionHash_spec storeBase "ETH" none).2 (Or.inl rfl)⟩

/-! ### C10: PENDING with an empty payments list -/

/-- C10: a priced charge with derived status PENDING and no detected
payment replaces the held charge but otherwise leaves the store
untouched: same step, same tracking log, same polling state. -/
theorem processChargeUpdate_pending_no_payment (s : ChargeStore) (c : Charge)
    (ctx : ChargeContext) (hst : chargeStatus c = some "PENDING")
    (hpriced : isUnpriced c = false) (hpay : c.payments = []) :
    processChargeUpdate s c ctx = { s with charge := c } := by
  by_cases hg : ctx = ChargeContext.poll ∧ s.charge = c
  · unfold processChargeUpdate
    rw [if_pos hg]
    rw [← hg.2]
  · rw [processChargeUpdate_eq_dispatch s c ctx hg]
    rw [dispatchStatus_pending _ hst]
    rw [if_neg (by simp [hpriced])]
    unfold processPendingPayment
    unfold activePayment
    simp [hpay]

/-- Witness for C10 at a concrete priced PENDING charge without payments. -/
theorem processChargeUpdate_pending_no_payment_witness :
    processChargeUpdate storeBase
        { chargeBase with timeline := [{ status := "PENDING" }] } ChargeContext.startup
      = { storeBase with charge := { chargeBase with timeline := [{ status := "PENDING" }] } } :=
  processChargeUpdate_pending_no_payment storeBase
    { chargeBase with timeline := [{ status := "PENDING" }] } ChargeContext.startup
    rfl rfl rfl

/-! ### C1: terminal statuses and the NEW/unknown no-op -/

/-- C1: whenever the update is actually processed (poll context only
processes a snapshot different from the held one), a derived status of
COMPLETED or RESOLVED moves the step to successfulPayment, UNRESOLVED or
EXPIRED to failedPayment, CANCELED to canceledPayment, and each of these
three terminal entries clears both the poll timer and the tick timer;
a NEW or unknown status leaves the step unchanged. -/
theorem processChargeUpdate_terminal_steps (s : ChargeStore) (c : Charge)
    (ctx : ChargeContext) (hg : ctx = ChargeContext.poll → c ≠ s.charge) :
    ((chargeStatus c = some "COMPLETED" ∨ chargeStatus c = some "RESOLVED") →
      (processChargeUpdate s c ctx).step = ChargeStep.successfulPayment
        ∧ (processChargeUpdate s c ctx).pollTimeoutId = false
        ∧ (processChargeUpdate s c ctx).expiryIntervalId = false)
    ∧ ((chargeStatus c = some "UNRESOLVED" ∨ chargeStatus c = some "EXPIRED") →
      (processChargeUpdate s c ctx).step = ChargeStep.failedPayment
        ∧ (processChargeUpdate s c ctx).pollTimeoutId = false
        ∧ (processChargeUpdate s c ctx).expiryIntervalId = false)
    ∧ (chargeStatus c = some "CANCELED" →
      (processChargeUpdate s c ctx).step = ChargeStep.canceledPayment
        ∧ (processChargeUpdate s c ctx).pollTimeoutId = false
        ∧ (processChargeUpdate s c ctx).expiryIntervalId = false)
    ∧ ((chargeStatus c = some "NEW" ∨
        (chargeStatus c ≠ some "PENDING" ∧ chargeStatus c ≠ some "COMPLETED"
          ∧ chargeStatus c ≠ some "RESOLVED" ∧ chargeStatus c ≠ some "UNRESOLVED"
          ∧ chargeStatus c ≠ some "EXPIRED" ∧ chargeStatus c ≠ some "CANCELED")) →
      (processChargeUpdate s c ctx).step = s.step) := by
  have hne : ¬(ctx = ChargeContext.poll ∧ s.charge = c) := by
    rintro ⟨h1, h2⟩
    exact hg h1 h2.symm
  rw [processChargeUpdate_eq_dispatch s c ctx hne]
  have hcs : chargeStatus ({ s with charge := c } : ChargeStore).charge = chargeStatus c := rfl
  refine ⟨?_, ?_, ?_, ?_⟩
  · rintro (h | h)
    · rw [dispatchStatus_completed _ (hcs.trans h)]
      exact ⟨rfl, rfl, rfl⟩
    · rw [dispatchStatus_resolved _ (hcs.trans h)]
      exact ⟨rfl, rfl, rfl⟩
  · rintro (h | h)
    · rw [dispatchStatus_unresolved _ (hcs.trans h)]
      exact ⟨rfl, rfl, rfl⟩
    · rw [dispatchStatus_expired _ (hcs.trans h)]
      exact ⟨rfl, rfl, rfl⟩
  · intro h
    rw [dispatchStatus_canceled _ (hcs.trans h)]
    exact ⟨rfl, rfl, rfl⟩
  · rintro (h | ⟨hP, hC, hR, hU, hE, hX⟩)
    · rw [dispatchStatus_new _ (hcs.trans h)]
    · rw [dispatchStatus_unknown _ (hcs.trans_ne hP) (hcs.trans_ne hC) (hcs.trans_ne hR)
        (hcs.trans_ne hU) (hcs.trans_ne hE) (hcs.trans_ne hX)]

/-- Witness for C1: a COMPLETED snapshot at startup lands on
successfulPayment with both timers cleared, and a snapshot with an
unknown status leaves the step alone. -/
theorem processChargeUpdate_terminal_steps_witness :
    (processChargeUpdate storeBase
        { chargeBase with timeline := [{ status := "NEW" }, { status := "COMPLETED" }] }
        ChargeContext.startup).step = ChargeStep.successfulPayment ∧
    (processChargeUpdate storeBase
        { chargeBase with timeline := [{ status := "NEW" }, { status := "COMPLETED" }] }
        ChargeContext.startup).pollTimeoutId = false ∧
    (processChargeUpdate storeBase
        { chargeBase with timeline := [{ status := "SHRUG" }] }
        ChargeContext.startup).step = storeBase.step := by
  have h1 := processChargeUpdate_terminal_steps storeBase
    { chargeBase with timeline := [{ status := "NEW" }, { status := "COMPLETED" }] }
    ChargeContext.startup (fun h => absurd h (by decide))
  have h2 := processChargeUpdate_terminal_steps storeBase
    { chargeBase with timeline := [{ status := "SHRUG" }] }
    ChargeContext.startup (fun h => absurd h (by decide))
  refine ⟨(h1.1 (Or.inl rfl)).1, (h1.1 (Or.inl rfl)).2.1, ?_⟩
  exact h2.2.2.2 (Or.inr (by refine ⟨?_, ?_, ?_, ?_, ?_, ?_⟩ <;> decide))

/-! ### C2: PENDING dispatch on the most recent detected payment -/

/-- C2: a processed PENDING snapshot goes straight to successfulPayment
when the charge is unpriced; otherwise the first detected payment decides:
enough confirmations means successfulPayment, exactly zero confirmations
means pendingPayment, and a positive but insufficient count means
waitingForConfirmations. -/
theorem processChargeUpdate_pending_spec (s : ChargeStore) (c : Charge)
    (ctx : ChargeContext) (hg : ctx = ChargeContext.poll → c ≠ s.charge)
    (hst : chargeStatus c = some "PENDING") :
    (isUnpriced c = true →
      (processChargeUpdate s c ctx).step = ChargeStep.successfulPayment)
    ∧ (isUnpriced c = false → ∀ p, activePayment c = some p →
      (p.block.confirmationsRequired ≤ p.block.confirmations →
        (processChargeUpdate s c ctx).step = ChargeStep.successfulPayment)
      ∧ (p.block.confirmations < p.block.confirmationsRequired →
        (p.block.confirmations = 0 →
          (processChargeUpdate s c ctx).step = ChargeStep.pendingPayment)
        ∧ (0 < p.block.confirmations →
          (processChargeUpdate s c ctx).step = ChargeStep.waitingForConfirmations))) := by
  have hne : ¬(ctx = ChargeContext.poll ∧ s.charge = c) := by
    rintro ⟨h1, h2⟩
    exact hg h1 h2.symm
  rw [processChargeUpdate_eq_dispatch s c ctx hne]
  have hcs : chargeStatus ({ s with charge := c } : ChargeStore).charge = chargeStatus c := rfl
  rw [dispatchStatus_pending _ (hcs.trans hst)]
  constructor
  · intro hu
    rw [if_pos (by simpa using hu)]
    exact showSuccessfulPayment_step _
  · intro hu p hp
    rw [if_neg (by simp [show isUnpriced ({ s with charge := c } : ChargeStore).charge = false
      from hu])]
    have hap : activePayment ({ s with charge := c } : ChargeStore).charge = some p := hp
    rw [processPendingPayment_some _ p hap]
    refine ⟨?_, ?_⟩
    · intro hle
      rw [if_pos hle]
      exact showSuccessfulPayment_step _
    · intro hlt
      have hnle : ¬ p.block.confirmationsRequired ≤ p.block.confirmations :=
        Nat.not_le_of_lt hlt
      refine ⟨?_, ?_⟩
      · intro hz
        rw [if_neg hnle, if_pos hz]
        exact showPendingPayment_step _
      · intro hpos
        rw [if_neg hnle, if_neg (Nat.pos_iff_ne_zero.mp hpos)]
        exact showWaitingForConfirmations_step _

/-- Witness for C2: a priced PENDING charge with one zero-confirmation
payment lands on pendingPayment. -/
theorem processChargeUpdate_pending_spec_witness :
    (processChargeUpdate storeBase
        { chargeBase with
            timeline := [{ status := "PENDING" }],
            payments := [{ block := { confirmations := 0, confirmationsRequired := 2 } }] }
        ChargeContext.startup).step = ChargeStep.pendingPayment := by
  have h := processChargeUpdate_pending_spec storeBase
    { chargeBase with
        timeline := [{ status := "PENDING" }],
        payments := [{ block := { confirmations := 0, confirmationsRequired := 2 } }] }
    ChargeContext.startup (fun h => absurd h (by decide)) rfl
  exact ((h.2 rfl { block := { confirmations := 0, confirmationsRequired := 2 } } rfl).2
    (by decide)).1 rfl

/-! ### C3: back-navigation -/

theorem shouldSkipNetworkPicker_set_pickedNetwork (s : ChargeStore) (x : Option String) :
    shouldSkipNetworkPicker { s with pickedNetwork := x } = shouldSkipNetworkPicker s := rfl

theorem showNetworkPicker_not_skip (s : ChargeStore)
    (h : shouldSkipNetworkPicker s = false) :
    showNetworkPicker s = { s with pickedNetwork := none, step := ChargeStep.networkPicker } := by
  unfold showNetworkPicker
  have h' : shouldSkipNetworkPicker { s with pickedNetwork := none } = false :=
    (shouldSkipNetworkPicker_set_pickedNetwork s none).trans h
  rw [if_neg (by simp [h'])]

theorem goBack_awaitingPayment (s : ChargeStore)
    (h : s.step = ChargeStep.awaitingPayment) :
    goBack s =
      if shouldSkipNetworkPicker s then
        Except.ok { stopPolling s with returnHomeCalls := s.returnHomeCalls + 1 }
      else
        Except.ok (showNetworkPicker s) := by
  unfold goBack
  rw [h]
  rfl

/-- C3: from awaitingPayment, goBack returns to the network picker unless
the picker would be skipped, in which case it stops polling and exits via
returnHome; from networkPicker and the three terminal steps it stops
polling and exits; from the in-flight steps it raises an error. -/
theorem goBack_spec (s : ChargeStore) :
    (s.step = ChargeStep.awaitingPayment → shouldSkipNetworkPicker s = false →
      goBack s = Except.ok (showNetworkPicker s)
        ∧ (showNetworkPicker s).step = ChargeStep.networkPicker
        ∧ (showNetworkPicker s).returnHomeCalls = s.returnHomeCalls)
    ∧ (s.step = ChargeStep.awaitingPayment → shouldSkipNetworkPicker s = true →
      goBack s = Except.ok { stopPolling s with returnHomeCalls := s.returnHomeCalls + 1 }
        ∧ (stopPolling s).pollTimeoutId = false
        ∧ (stopPolling s).expiryIntervalId = false)
    ∧ ((s.step = ChargeStep.networkPicker ∨ s.step = ChargeStep.successfulPayment
          ∨ s.step = ChargeStep.failedPayment ∨ s.step = ChargeStep.canceledPayment) →
      goBack s = Except.ok { stopPolling s with returnHomeCalls := s.returnHomeCalls + 1 }
        ∧ (stopPolling s).pollTimeoutId = false
        ∧ (stopPolling s).expiryIntervalId = false)
    ∧ ((s.step = ChargeStep.pendingPayment ∨ s.step = ChargeStep.waitingForConfirmations
          ∨ s.step = ChargeStep.processingCancellation) →
      ∃ msg, goBack s = Except.error msg) := by
  refine ⟨?_, ?_, ?_, ?_⟩
  · intro h1 hskip
    rw [goBack_awaitingPayment s h1, if_neg (by simp [hskip]),
      showNetworkPicker_not_skip s hskip]
    exact ⟨rfl, rfl, rfl⟩
  · intro h1 hskip
    rw [goBack_awaitingPayment s h1, if_pos (by simp [hskip])]
    exact ⟨rfl, rfl, rfl⟩
  · rintro (h | h | h | h) <;>
      exact ⟨by unfold goBack; rw [h] <;> rfl, rfl, rfl⟩
  · rintro (h | h | h) <;>
      exact ⟨_, by unfold goBack; rw [h] <;> rfl⟩

/-- Witness for C3: a two-way-viable store returns to the picker; a
terminal store and a skip store stop polling and return home; an
in-flight store yields an error. -/
theorem goBack_spec_witness :
    goBack storeBase = Except.ok (showNetworkPicker storeBase)
    ∧ (showNetworkPicker storeBase).step = ChargeStep.networkPicker
    ∧ goBack { storeBase with step := ChargeStep.successfulPayment }
        = Except.ok { stopPolling { storeBase with step := ChargeStep.successfulPayment }
            with returnHomeCalls := storeBase.returnHomeCalls + 1 }
    ∧ goBack { storeBase with localStorageAvailable := false }
        = Except.ok { stopPolling { storeBase with localStorageAvailable := false }
            with returnHomeCalls := storeBase.returnHomeCalls + 1 }
    ∧ (goBack { storeBase with step := ChargeStep.pendingPayment }).toOption = none := by
  have hA := (goBack_spec storeBase).1 rfl (by decide)
  have hB := (goBack_spec { storeBase with step := ChargeStep.successfulPayment }).2.2.1
    (Or.inr (Or.inl rfl))
  have hC := (goBack_spec { storeBase with localStorageAvailable := false }).2.1
    rfl (by decide)
  obtain ⟨msg, hD⟩ := (goBack_spec { storeBase with step := ChargeStep.pendingPayment }).2.2.2
    (Or.inl rfl)
  exact ⟨hA.1, hA.2.1, hB.1, hC.1, by rw [hD]; rfl⟩

/-! ### C4: cancellation flow -/

/-- C4: cancelCharge first tracks, optimistically moves to
processingCancellation and stops polling, then handles the backend
response: a failed request is swallowed, leaving the previously held
charge untouched in that stopped state, while a successful response is
fed through processChargeUpdate with cancel context; in every case the
returned value is the held charge's cancelUrl. -/
theorem cancelCharge_spec (s : ChargeStore) (result : Except ApiError Charge) :
    ((cancelCharge s result).2 = (cancelCharge s result).1.charge.cancelUrl)
    ∧ (∀ e, result = Except.error e →
      (cancelCharge s result).1 =
          stopPolling { track s "checkout:payment-canceled" with
            step := ChargeStep.processingCancellation }
        ∧ (cancelCharge s result).1.charge = s.charge
        ∧ (cancelCharge s result).1.step = ChargeStep.processingCancellation
        ∧ (cancelCharge s result).1.pollTimeoutId = false
        ∧ (cancelCharge s result).1.expiryIntervalId = false
        ∧ (cancelCharge s result).2 = s.charge.cancelUrl)
    ∧ (∀ c, result = Except.ok c →
      (cancelCharge s result).1 =
        processChargeUpdate
          (stopPolling { track s "checkout:payment-canceled" with
            step := ChargeStep.processingCancellation })
          c ChargeContext.cancel) := by
  refine ⟨?_, ?_, ?_⟩
  · cases result <;> rfl
  · intro e he
    subst he
    exact ⟨rfl, rfl, rfl, rfl, rfl, rfl⟩
  · intro c hc
    subst hc
    rfl

/-- Witness for C4: a 404-class failure leaves the held charge in place
and still returns its cancelUrl; a success response is processed in
cancel context. -/
theorem cancelCharge_spec_witness :
    (cancelCharge storeBase
        (Except.error { statusCode := 404, errorType := "invalid_request" })).1.charge
      = chargeBase
    ∧ (cancelCharge storeBase
        (Except.error { statusCode := 404, errorType := "invalid_request" })).2
      = some "https://example.com/cancel"
    ∧ (cancelCharge storeBase
        (Except.error { statusCode := 404, errorType := "invalid_request" })).1.step
      = ChargeStep.processingCancellation := by
  have h := (cancelCharge_spec storeBase
    (Except.error { statusCode := 404, errorType := "invalid_request" })).2.1
    { statusCode := 404, errorType := "invalid_request" } rfl
  exact ⟨h.2.1, h.2.2.2.2.2, h.2.2.1⟩

/-! ### C7: below-lower-send-limit policy -/

theorem pricedEntries_length (addresses : List (String × String))
    (pricing : List (String × CryptoMoney)) (es : List CryptoMoney)
    (h : pricedEntries addresses pricing = some es) : es.length = addresses.length := by
  induction addresses generalizing es with
  | nil =>
    unfold pricedEntries at h
    simp at h
    subst h
    rfl
  | cons kv rest ih =>
    unfold pricedEntries at h
    cases hl : pricing.lookup kv.1 with
    | none => rw [hl] at h; simp at h
    | some m =>
      rw [hl] at h
      cases hr : pricedEntries rest pricing with
      | none => rw [hr] at h; simp at h
      | some es' =>
        rw [hr] at h
        simp at h
        subst h
        simp [ih es' hr]

theorem setIsBelow_priced (c : Charge) (es : List CryptoMoney)
    (hu : isUnpriced c = false) (hes : pricedEntries c.addresses c.pricing = some es) :
    setIsChargeBelowCoinbaseLowerSendLimit c =
      some (decide ((es.filter isInvalidEntry).length = c.addresses.length)) := by
  unfold setIsChargeBelowCoinbaseLowerSendLimit
  rw [if_neg (by simp [hu]), hes]

/-- C7: the below-lower-send-limit flag is false for every unpriced
charge; for a priced charge whose address keys all have pricing entries,
the flag is true exactly when every entry's amount is strictly below its
currency's fixed minimum (absent currencies defaulting to a 0 minimum) —
so it is false whenever at least one network's price meets its minimum. -/
theorem isBelowLowerSendLimit_spec (c : Charge) :
    (isUnpriced c = true → setIsChargeBelowCoinbaseLowerSendLimit c = some false)
    ∧ (isUnpriced c = false → ∀ es, pricedEntries c.addresses c.pricing = some es →
      (setIsChargeBelowCoinbaseLowerSendLimit c = some true ↔
        ∀ m ∈ es, m.amount < lowerSendLimit m.currency)) := by
  constructor
  · intro hu
    unfold setIsChargeBelowCoinbaseLowerSendLimit
    rw [if_pos (by simp [hu])]
  · intro hu es hes
    rw [setIsBelow_priced c es hu hes]
    have hlen := pricedEntries_length c.addresses c.pricing es hes
    constructor
    · intro h m hm
      have hd : (es.filter isInvalidEntry).length = c.addresses.length :=
        of_decide_eq_true (Option.some.inj h)
      rw [← hlen] at hd
      have hall := List.filter_length_eq_length.mp hd m hm
      exact of_decide_eq_true hall
    · intro h
      have hall : ∀ m ∈ es, isInvalidEntry m = true :=
        fun m hm => decide_eq_true (h m hm)
      have hd := List.filter_length_eq_length.mpr hall
      rw [hlen] at hd
      simp [hd]

/-- A priced charge whose only network is priced below the BTC minimum
(0.00005 BTC against the 0.0001 table entry). -/
def chargeBtcLow : Charge :=
  { code := "BTCLOW", pricingType := "fixed_price",
    addresses := [("bitcoin", "addr1")],
    pricing := [("bitcoin", { amount := mkRat 5 100000, currency := "BTC" })],
    timeline := [{ status := "NEW" }],
    payments := [],
    cancelUrl := none }

/-- Witness for C7: the 0.00005 BTC charge is below the limit. -/
theorem isBelowLowerSendLimit_spec_witness :
    setIsChargeBelowCoinbaseLowerSendLimit chargeBtcLow = some true := by
  have h := (isBelowLowerSendLimit_spec chargeBtcLow).2 (by decide)
    [{ amount := mkRat 5 100000, currency := "BTC" }] rfl
  refine h.mpr ?_
  intro m hm
  have hm' : m = { amount := mkRat 5 100000, currency := "BTC" } := by simpa using hm
  subst hm'
  decide

end Resthooks
